import Mathlib

/-!
Verification of the Polly-API client library.

This file gives a shallow embedding of the five client functions
(register_user, create_poll, fetch_polls, vote_on_poll, get_poll_results)
of the repository.  Each Python function performs one HTTP request and then
inspects the response's status code and body; that status/body inspection is
pure, and it is embedded here as a total Lean function from a response record
to an outcome.

Modelling conventions, written from the source:
- A JSON body is modelled by the inductive type Json (numbers as integers;
  the claims never involve fractional numbers).
- A response record Resp carries the status code, the decoded text of the
  body, and the result of attempting to parse the body as JSON
  (none = parse failure; the Python requests library raises
  requests.exceptions.JSONDecodeError there, a subclass of both ValueError
  and RequestException).
- The Python expression "resp.content" is truthy exactly when the body text
  is non-empty, so emptiness of the content is modelled as text = "".
- Python raising behaviour is made explicit in the Outcome type: the
  ValueError raises of the source become the fail* constructors, the
  raise_for_status HTTPError (re-raised, wrapped in a RequestException by
  the enclosing except-block) becomes httpError, a JSON parse failure on a
  body that is handed to resp.json() (also re-raised as a RequestException)
  becomes jsonError, falling off the end of the if/elif chain becomes
  retNone, and an escaping untyped exception (AttributeError from calling
  .get on a non-dict, TypeError from applying len or the in-operator to a
  non-sized value) becomes attrError / typeError.
-/

namespace PollyAPI

/-- JSON values, as produced by parsing a response body. -/
inductive Json where
  | null : Json
  | bool : Bool → Json
  | num : Int → Json
  | str : String → Json
  | arr : List Json → Json
  | obj : List (String × Json) → Json

mutual

/-- Decidable equality on JSON values (the automatic deriving does not
handle the nesting through List). -/
def Json.decEq : (a b : Json) → Decidable (a = b)
  | .null, .null => .isTrue rfl
  | .bool x, .bool y =>
    if h : x = y then .isTrue (by rw [h]) else .isFalse (by intro hc; cases hc; exact h rfl)
  | .num x, .num y =>
    if h : x = y then .isTrue (by rw [h]) else .isFalse (by intro hc; cases hc; exact h rfl)
  | .str x, .str y =>
    if h : x = y then .isTrue (by rw [h]) else .isFalse (by intro hc; cases hc; exact h rfl)
  | .arr xs, .arr ys =>
    match Json.decEqList xs ys with
    | .isTrue h => .isTrue (by rw [h])
    | .isFalse h => .isFalse (by intro hc; cases hc; exact h rfl)
  | .obj xs, .obj ys =>
    match Json.decEqObj xs ys with
    | .isTrue h => .isTrue (by rw [h])
    | .isFalse h => .isFalse (by intro hc; cases hc; exact h rfl)
  | .null, .bool _ => .isFalse (fun h => Json.noConfusion h)
  | .null, .num _ => .isFalse (fun h => Json.noConfusion h)
  | .null, .str _ => .isFalse (fun h => Json.noConfusion h)
  | .null, .arr _ => .isFalse (fun h => Json.noConfusion h)
  | .null, .obj _ => .isFalse (fun h => Json.noConfusion h)
  | .bool _, .null => .isFalse (fun h => Json.noConfusion h)
  | .bool _, .num _ => .isFalse (fun h => Json.noConfusion h)
  | .bool _, .str _ => .isFalse (fun h => Json.noConfusion h)
  | .bool _, .arr _ => .isFalse (fun h => Json.noConfusion h)
  | .bool _, .obj _ => .isFalse (fun h => Json.noConfusion h)
  | .num _, .null => .isFalse (fun h => Json.noConfusion h)
  | .num _, .bool _ => .isFalse (fun h => Json.noConfusion h)
  | .num _, .str _ => .isFalse (fun h => Json.noConfusion h)
  | .num _, .arr _ => .isFalse (fun h => Json.noConfusion h)
  | .num _, .obj _ => .isFalse (fun h => Json.noConfusion h)
  | .str _, .null => .isFalse (fun h => Json.noConfusion h)
  | .str _, .bool _ => .isFalse (fun h => Json.noConfusion h)
  | .str _, .num _ => .isFalse (fun h => Json.noConfusion h)
  | .str _, .arr _ => .isFalse (fun h => Json.noConfusion h)
  | .str _, .obj _ => .isFalse (fun h => Json.noConfusion h)
  | .arr _, .null => .isFalse (fun h => Json.noConfusion h)
  | .arr _, .bool _ => .isFalse (fun h => Json.noConfusion h)
  | .arr _, .num _ => .isFalse (fun h => Json.noConfusion h)
  | .arr _, .str _ => .isFalse (fun h => Json.noConfusion h)
  | .arr _, .obj _ => .isFalse (fun h => Json.noConfusion h)
  | .obj _, .null => .isFalse (fun h => Json.noConfusion h)
  | .obj _, .bool _ => .isFalse (fun h => Json.noConfusion h)
  | .obj _, .num _ => .isFalse (fun h => Json.noConfusion h)
  | .obj _, .str _ => .isFalse (fun h => Json.noConfusion h)
  | .obj _, .arr _ => .isFalse (fun h => Json.noConfusion h)

/-- Decidable equality on lists of JSON values. -/
def Json.decEqList : (a b : List Json) → Decidable (a = b)
  | [], [] => .isTrue rfl
  | [], _ :: _ => .isFalse (fun h => List.noConfusion h)
  | _ :: _, [] => .isFalse (fun h => List.noConfusion h)
  | x :: xs, y :: ys =>
    match Json.decEq x y with
    | .isTrue h1 =>
      match Json.decEqList xs ys with
      | .isTrue h2 => .isTrue (by rw [h1, h2])
      | .isFalse h2 => .isFalse (by intro hc; injection hc with e1 e2; exact h2 e2)
    | .isFalse h1 => .isFalse (by intro hc; injection hc with e1 e2; exact h1 e1)

/-- Decidable equality on JSON object field lists. -/
def Json.decEqObj : (a b : List (String × Json)) → Decidable (a = b)
  | [], [] => .isTrue rfl
  | [], _ :: _ => .isFalse (fun h => List.noConfusion h)
  | _ :: _, [] => .isFalse (fun h => List.noConfusion h)
  | (k, v) :: xs, (k2, v2) :: ys =>
    if hk : k = k2 then
      match Json.decEq v v2 with
      | .isTrue h1 =>
        match Json.decEqObj xs ys with
        | .isTrue h2 => .isTrue (by rw [hk, h1, h2])
        | .isFalse h2 => .isFalse (by intro hc; injection hc with e1 e2; exact h2 e2)
      | .isFalse h1 =>
        .isFalse (by
          intro hc; injection hc with e1 e2; apply h1
          have := congrArg Prod.snd e1; simpa using this)
    else
      .isFalse (by
        intro hc; injection hc with e1 e2; apply hk
        have := congrArg Prod.fst e1; simpa using this)

end

instance : DecidableEq Json := Json.decEq

/-- Whether a parsed JSON value is a Python dict. -/
def Json.isObj : Json → Bool
  | .obj _ => true
  | _ => false

/-- Substring test on strings, modelling the Python expression key in s
for strings s. -/
def strContainsSub (s key : String) : Bool :=
  (List.range (s.data.length + 1)).any (fun i => key.data.isPrefixOf (s.data.drop i))

/-- The Python expression key in j for a parsed JSON value j.
Returns none when the expression raises TypeError (argument of type int,
float, bool or NoneType is not iterable). -/
def pyIn (key : String) : Json → Option Bool
  | .obj fs => some (fs.any (fun p => p.1 == key))
  | .str s => some (strContainsSub s key)
  | .arr xs => some (xs.any (fun x => x == Json.str key))
  | _ => none

/-- Key membership in a dict; false on every non-dict value. Used only on
code paths that have already established the value is a dict. -/
def Json.hasKey : Json → String → Bool
  | .obj fs, k => fs.any (fun p => p.1 == k)
  | _, _ => false

/-- Lookup of a key in a parsed JSON object.  Python's json.loads keeps the
last occurrence of a duplicated key, so the last binding wins. -/
def lookupLast (fs : List (String × Json)) (k : String) : Option Json :=
  ((fs.reverse).find? (fun p => p.1 == k)).map (fun p => p.2)

/-- The Python expression j.get(k, d) for a dict j.  The source only calls
.get after the value is known to be a dict (a .get on any other JSON value
raises AttributeError, modelled separately at the call sites). -/
def Json.getD (j : Json) (k : String) (d : Json) : Json :=
  match j with
  | .obj fs => (lookupLast fs k).getD d
  | _ => d

/-- The Python expression len(j): defined on str, list and dict, raises
TypeError (modelled as none) on int, bool and None. -/
def pyLen : Json → Option Nat
  | .str s => some s.length
  | .arr xs => some xs.length
  | .obj fs => some fs.length
  | _ => none

/-- The Python expression j[k] with a string key k: a key lookup on a dict,
and a TypeError (modelled as none) on any other value. -/
def pyIndexStr : Json → String → Option Json
  | .obj fs, k => lookupLast fs k
  | _, _ => none

/-- The Python expression all(key in j for key in ks), with the generator's
left-to-right short-circuit evaluation; none when some membership test
raises TypeError. -/
def pyAllIn : List String → Json → Option Bool
  | [], _ => some true
  | k :: ks, j =>
    match pyIn k j with
    | none => none
    | some false => some false
    | some true => pyAllIn ks j

/-- An HTTP response as seen by the client code: status code, decoded body
text, and the result of trying to parse the body as JSON (none means
resp.json() raises). -/
structure Resp where
  status : Nat
  text : String
  jsonParse : Option Json
  deriving DecidableEq

/-- The diagnostic payload attached to a validation failure: either the raw
body text / a sentinel string, or the parsed JSON body. -/
inductive ErrDetail where
  | ofText (s : String) : ErrDetail
  | ofJson (j : Json) : ErrDetail
  deriving DecidableEq

/-- The observable result of running one client function's response handling.
success is a normal return of the parsed body; the fail* constructors are the
typed ValueError raises of the source; httpError is the raise_for_status
HTTPError re-raised as a RequestException; jsonError is a JSON parse failure
re-raised as a RequestException; retNone is Python's implicit return None;
attrError and typeError are untyped exceptions escaping the function. -/
inductive Outcome where
  | success (v : Json) : Outcome
  | failConflict (d : String) : Outcome
  | failUnauthorized (d : String) : Outcome
  | failNotFound (d : String) : Outcome
  | failValidation (d : ErrDetail) : Outcome
  | failFormat (d : String) : Outcome
  | httpError (status : Nat) (text : String) : Outcome
  | jsonError : Outcome
  | retNone : Outcome
  | attrError : Outcome
  | typeError : Outcome
  deriving DecidableEq

/-- An outcome is a typed result of classification: a success value, or one
of the failures the source raises (or wraps) deliberately.  retNone (an
absent result) and the escaping untyped exceptions are not typed outcomes. -/
def Outcome.isTypedOutcome : Outcome → Bool
  | .retNone => false
  | .attrError => false
  | .typeError => false
  | _ => true

/-- Whether an outcome is a success. -/
def Outcome.isSuccess : Outcome → Bool
  | .success _ => true
  | _ => false

/-- Required fields checked by vote_on_poll on a 200 body. -/
def vote_required : List String := ["id", "user_id", "option_id", "created_at"]

/-- Required fields checked by create_poll on a 200 body. -/
def create_required : List String := ["id", "question", "created_at", "owner_id", "options"]

/-- Required fields checked by fetch_polls on each element of a 200 list body. -/
def fetch_required : List String := ["id", "question", "created_at", "owner_id", "options"]

/-- Required fields checked by get_poll_results on a 200 body. -/
def results_required : List String := ["id", "question", "options", "created_at", "user_id"]

/-- Response handling of register_user (src/register_user.py, lines 47-62,
with the enclosing try/except of lines 39-66).  On 200 the code first logs
user_data.get(...), which raises AttributeError when the parsed body is not
a dict; on 400 and 422 it raises ValueError; otherwise raise_for_status
raises for 400 <= status < 600 and the function falls through to an implicit
return None for the remaining codes. -/
def register_user (r : Resp) : Outcome :=
  if r.status = 200 then
    match r.jsonParse with
    | none => .jsonError
    | some j => if j.isObj then .success j else .attrError
  else if r.status = 400 then .failConflict r.text
  else if r.status = 422 then
    if r.text = "" then .failValidation (.ofText "Validation error")
    else
      match r.jsonParse with
      | none => .jsonError
      | some j => .failValidation (.ofJson j)
  else if 400 ≤ r.status ∧ r.status < 600 then .httpError r.status r.text
  else .retNone

/-- Response handling of vote_on_poll (src/vote_on_poll.py, lines 52-80,
with the enclosing try/except).  On 200, after the logging .get calls
(AttributeError on a non-dict body), both branches of the required-fields
check return the parsed body. -/
def vote_on_poll (r : Resp) : Outcome :=
  if r.status = 200 then
    match r.jsonParse with
    | none => .jsonError
    | some j =>
      if j.isObj then
        if vote_required.all (j.hasKey) then .success j else .success j
      else .attrError
  else if r.status = 401 then .failUnauthorized r.text
  else if r.status = 404 then .failNotFound r.text
  else if r.status = 422 then
    if r.text = "" then .failValidation (.ofText "Validation error")
    else
      match r.jsonParse with
      | none => .jsonError
      | some j => .failValidation (.ofJson j)
  else if 400 ≤ r.status ∧ r.status < 600 then .httpError r.status r.text
  else .retNone

/-- Response handling of create_poll (src/create_poll.py, lines 57-82, with
the enclosing try/except).  On 200, when every required field is present the
code evaluates len(poll_data.get("options", [])), which raises TypeError
when the options value is an int, bool or None; when some field is missing
it logs a warning and still returns the body. -/
def create_poll (r : Resp) : Outcome :=
  if r.status = 200 then
    match r.jsonParse with
    | none => .jsonError
    | some j =>
      if j.isObj then
        if create_required.all (j.hasKey) then
          match pyLen (j.getD "options" (.arr [])) with
          | some _ => .success j
          | none => .typeError
        else .success j
      else .attrError
  else if r.status = 401 then .failUnauthorized r.text
  else if r.status = 422 then
    if r.text = "" then .failValidation (.ofText "Validation error")
    else
      match r.jsonParse with
      | none => .jsonError
      | some j => .failValidation (.ofJson j)
  else if 400 ≤ r.status ∧ r.status < 600 then .httpError r.status r.text
  else .retNone

/-- The per-element loop of fetch_polls over a 200 list body
(src/fetch_polls.py, lines 55-57): for each element the code evaluates
all(key in poll for ...) (TypeError on an int/bool/None element), and on a
missing field logs a warning whose format string calls poll.get
(AttributeError on a non-dict element).  Returns some e when the loop
escapes with exception outcome e, none when it completes. -/
def fetch_items_check : List Json → Option Outcome
  | [] => none
  | p :: ps =>
    match pyAllIn fetch_required p with
    | none => some .typeError
    | some true => fetch_items_check ps
    | some false => if p.isObj then fetch_items_check ps else some .attrError

/-- Response handling of fetch_polls (src/fetch_polls.py, lines 49-70, with
the enclosing try/except).  On 200 the code first evaluates len(polls_data)
(TypeError on int/bool/None), then branches on isinstance(polls_data, list):
a list is returned unchanged after the per-element diagnostic loop, anything
else raises ValueError. -/
def fetch_polls (r : Resp) : Outcome :=
  if r.status = 200 then
    match r.jsonParse with
    | none => .jsonError
    | some j =>
      match pyLen j with
      | none => .typeError
      | some _ =>
        match j with
        | .arr ps =>
          match fetch_items_check ps with
          | some e => e
          | none => .success (.arr ps)
        | _ => .failFormat "Invalid response format: expected list of polls"
  else if r.status = 422 then
    if r.text = "" then .failValidation (.ofText "Validation error")
    else
      match r.jsonParse with
      | none => .jsonError
      | some j => .failValidation (.ofJson j)
  else if 400 ≤ r.status ∧ r.status < 600 then .httpError r.status r.text
  else .retNone

/-- The per-option structure check of get_poll_results
(src/get_poll_results.py, lines 80-83): isinstance(option, dict) and
membership of the id and text keys, with short-circuit evaluation so no
TypeError can arise. -/
def optionOk : Json → Bool
  | .obj fs => fs.any (fun p => p.1 == "id") && fs.any (fun p => p.1 == "text")
  | _ => false

/-- The observable result of get_poll_results: a returned poll value, a
returned None, or an escaping TypeError (the inner except catches only
ValueError, the outer excepts catch only requests exceptions). -/
inductive PollResult where
  | ok (v : Json) : PollResult
  | noneRet : PollResult
  | typeError : PollResult
  deriving DecidableEq

/-- Response handling of get_poll_results (src/get_poll_results.py, lines
64-109).  On 200: a JSON parse failure is caught (ValueError) and yields
None; the required-fields membership test raises TypeError on an int, bool
or None body; poll_data["options"] raises TypeError on a str or list body
that passed the membership test; a non-list options value, a malformed
option, or a missing field yields None.  Every non-200 status yields None. -/
def get_poll_results_classify (r : Resp) : PollResult :=
  if r.status = 200 then
    match r.jsonParse with
    | none => .noneRet
    | some j =>
      match pyAllIn results_required j with
      | none => .typeError
      | some false => .noneRet
      | some true =>
        match pyIndexStr j "options" with
        | none => .typeError
        | some opts =>
          match opts with
          | .arr os => if os.all optionOk then .ok j else .noneRet
          | _ => .noneRet
  else .noneRet

/-- What the transport layer delivers: a response, or one of the request
exceptions the source catches (ConnectionError, Timeout, RequestException). -/
inductive Transport where
  | resp (r : Resp) : Transport
  | connectionError : Transport
  | timeout : Transport
  | requestException : Transport
  deriving DecidableEq

/-- The whole of get_poll_results (src/get_poll_results.py, lines 33-121):
argument validation before any request (poll_id must be positive, base_url
non-empty; checked in that order), then the request and the response
classification, with every caught transport exception yielding None.  The
Bool component records whether a request was issued at all. -/
def get_poll_results (base_url : String) (poll_id : Int) (t : Transport) : Bool × PollResult :=
  if poll_id ≤ 0 then (false, .noneRet)
  else if base_url = "" then (false, .noneRet)
  else
    (true,
      match t with
      | .resp r => get_poll_results_classify r
      | _ => .noneRet)

/-- Python's s.rstrip("/"): remove every trailing slash. -/
def rstripSlash (s : String) : String :=
  String.mk ((s.data.reverse.dropWhile (fun c => c == '/')).reverse)

/-- URL built by register_user (src/register_user.py, line 26). -/
def register_url (base_url : String) : String :=
  rstripSlash base_url ++ "/register"

/-- URL built by create_poll (src/create_poll.py, line 35). -/
def create_poll_url (base_url : String) : String :=
  rstripSlash base_url ++ "/polls"

/-- URL built by fetch_polls (src/fetch_polls.py, line 33). -/
def fetch_polls_url (base_url : String) : String :=
  rstripSlash base_url ++ "/polls"

/-- URL built by vote_on_poll (src/vote_on_poll.py, line 31). -/
def vote_on_poll_url (base_url : String) (poll_id : Int) : String :=
  rstripSlash base_url ++ "/polls/" ++ toString poll_id ++ "/vote"

/-- URL built by get_poll_results (src/get_poll_results.py, line 43). -/
def get_poll_results_url (base_url : String) (poll_id : Int) : String :=
  rstripSlash base_url ++ "/polls/" ++ toString poll_id

/-- A string of n slashes, for stating trailing-slash normalization. -/
def slashes (n : Nat) : String := String.mk (List.replicate n '/')

/-- A parse result that is either absent (the body is not valid JSON) or a
JSON object; the body shapes on which the 200-branches of register_user and
vote_on_poll (and get_poll_results) complete without an untyped exception. -/
def objOrUnparsed : Option Json → Bool
  | none => true
  | some (.obj _) => true
  | some _ => false

/-- Body shapes on which the 200-branch of create_poll completes without an
untyped exception: unparsable, or an object whose options value has a
length whenever all required fields are present. -/
def createSafeBody : Option Json → Bool
  | none => true
  | some (Json.obj fs) =>
      !(create_required.all ((Json.obj fs).hasKey))
        || (pyLen ((Json.obj fs).getD "options" (Json.arr []))).isSome
  | some _ => false

/-- Body shapes on which the 200-branch of fetch_polls completes without an
untyped exception: unparsable, or a list all of whose elements are objects. -/
def fetchSafeBody : Option Json → Bool
  | none => true
  | some (.arr ps) => ps.all Json.isObj
  | some _ => false

/-! ## Helper lemmas -/

theorem pyAllIn_obj (ks : List String) (fs : List (String × Json)) :
    pyAllIn ks (Json.obj fs) = some (ks.all (fun k => fs.any (fun p => p.1 == k))) := by
  induction ks with
  | nil => rfl
  | cons k ks ih =>
    show (match pyIn k (Json.obj fs) with
      | none => none
      | some false => some false
      | some true => pyAllIn ks (Json.obj fs)) = _
    cases h : fs.any (fun p => p.1 == k) with
    | false => simp [pyIn, h]
    | true => simp [pyIn, h, ih]

theorem lookupLast_isSome (fs : List (String × Json)) (k : String)
    (h : fs.any (fun p => p.1 == k) = true) : ∃ v, lookupLast fs k = some v := by
  have hm : ∃ p, p ∈ fs.reverse ∧ (p.1 == k) = true := by
    obtain ⟨p, hp, hpk⟩ := List.any_eq_true.mp h
    exact ⟨p, List.mem_reverse.mpr hp, hpk⟩
  have := List.find?_isSome.mpr hm
  obtain ⟨p, hp⟩ := Option.isSome_iff_exists.mp this
  exact ⟨p.2, by simp [lookupLast, hp]⟩

theorem fetch_items_check_of_obj (ps : List Json) (h : ps.all Json.isObj = true) :
    fetch_items_check ps = none := by
  induction ps with
  | nil => rfl
  | cons p ps ih =>
    obtain ⟨hp, hps⟩ := by simpa using h
    obtain ⟨fs, rfl⟩ : ∃ fs, p = Json.obj fs := by
      cases p <;> simp [Json.isObj] at hp ⊢
    show (match pyAllIn fetch_required (Json.obj fs) with
      | none => some Outcome.typeError
      | some true => fetch_items_check ps
      | some false =>
        if (Json.obj fs).isObj then fetch_items_check ps else some Outcome.attrError) = none
    rw [pyAllIn_obj]
    have hps2 : ps.all Json.isObj = true := List.all_eq_true.mpr hps
    cases fetch_required.all (fun k => fs.any (fun p => p.1 == k)) <;>
      simp [Json.isObj, ih hps2]

theorem fetch_items_check_of_all_fields (ps : List Json)
    (h : ∀ p ∈ ps, pyAllIn fetch_required p = some true) :
    fetch_items_check ps = none := by
  induction ps with
  | nil => rfl
  | cons p ps ih =>
    show (match pyAllIn fetch_required p with
      | none => some Outcome.typeError
      | some true => fetch_items_check ps
      | some false =>
        if p.isObj then fetch_items_check ps else some Outcome.attrError) = none
    rw [h p (by simp)]
    exact ih (fun q hq => h q (by simp [hq]))

theorem dropWhile_slash_replicate (n : Nat) (l : List Char) :
    List.dropWhile (fun c => c == '/') (List.replicate n '/' ++ l)
      = List.dropWhile (fun c => c == '/') l := by
  induction n with
  | zero => simp
  | succ n ih => simp [List.replicate_succ, List.dropWhile_cons, ih]

theorem rstripSlash_append_slashes (s : String) (n : Nat) :
    rstripSlash (s ++ slashes n) = rstripSlash s := by
  unfold rstripSlash slashes
  apply congrArg String.mk
  apply congrArg List.reverse
  rw [String.data_append]
  show List.dropWhile _ ((s.data ++ List.replicate n '/').reverse) = _
  rw [List.reverse_append, List.reverse_replicate]
  exact dropWhile_slash_replicate n s.data.reverse

/-! ## Claim theorems -/

/-- C6: for the vote operation, every response with status 404 yields the
NotFound failure whose detail is the response body text; in particular a 404
with body text "Poll or option not found" yields exactly that detail. -/
theorem spec_C6 (t : String) (j? : Option Json) :
    vote_on_poll ⟨404, t, j?⟩ = .failNotFound t
  ∧ vote_on_poll ⟨404, "Poll or option not found", none⟩
      = .failNotFound "Poll or option not found" := by
  constructor
  · simp [vote_on_poll]
  · simp [vote_on_poll]

/-- C7: every response with status 401 makes both vote_on_poll and
create_poll produce the Unauthorized failure carrying the response body text,
so authentication-failure handling is uniform across the two operations. -/
theorem spec_C7 (t : String) (j? : Option Json) :
    vote_on_poll ⟨401, t, j?⟩ = .failUnauthorized t
  ∧ create_poll ⟨401, t, j?⟩ = .failUnauthorized t
  ∧ vote_on_poll ⟨401, t, j?⟩ = create_poll ⟨401, t, j?⟩ := by
  refine ⟨?_, ?_, ?_⟩ <;> simp [vote_on_poll, create_poll]

/-- C8: every operation builds its request URL by stripping all trailing
slash characters from the base URL before appending the operation path, so
appending any number of trailing slashes (in particular a single one) to the
base URL leaves all five request URLs unchanged. -/
theorem spec_C8 (base : String) (n : Nat) (poll_id : Int) :
    register_url (base ++ slashes n) = register_url base
  ∧ create_poll_url (base ++ slashes n) = create_poll_url base
  ∧ fetch_polls_url (base ++ slashes n) = fetch_polls_url base
  ∧ vote_on_poll_url (base ++ slashes n) poll_id = vote_on_poll_url base poll_id
  ∧ get_poll_results_url (base ++ slashes n) poll_id = get_poll_results_url base poll_id
  ∧ register_url (base ++ "/") = register_url base := by
  have h := rstripSlash_append_slashes base n
  have h1 : ("/" : String) = slashes 1 := by decide
  have h2 := rstripSlash_append_slashes base 1
  refine ⟨?_, ?_, ?_, ?_, ?_, ?_⟩ <;>
    simp [register_url, create_poll_url, fetch_polls_url, vote_on_poll_url,
      get_poll_results_url, h, h1, h2]

/-- C9: a response whose status code is below 400 and not among the
function's enumerated branches (all non-200 enumerated branches are 4xx)
makes register_user, create_poll, fetch_polls and vote_on_poll fall through
the raise_for_status catch-all, which does not raise below 400, and return
Python None. -/
theorem spec_C9 (r : Resp) (hlt : r.status < 400) (hne : r.status ≠ 200) :
    register_user r = .retNone ∧ create_poll r = .retNone
  ∧ fetch_polls r = .retNone ∧ vote_on_poll r = .retNone := by
  obtain ⟨s, t, j?⟩ := r
  simp only at hlt hne
  have h400 : s ≠ 400 := by omega
  have h401 : s ≠ 401 := by omega
  have h404 : s ≠ 404 := by omega
  have h422 : s ≠ 422 := by omega
  have hge : ¬(400 ≤ s ∧ s < 600) := by omega
  refine ⟨?_, ?_, ?_, ?_⟩ <;>
    simp [register_user, create_poll, fetch_polls, vote_on_poll,
      hne, h400, h401, h404, h422, hge]

/-- C9 witness: a 201 response (and a 204 and a 304 one) with an arbitrary
body makes all four raising operations return None. -/
theorem spec_C9_witness :
    (register_user ⟨201, "created", none⟩ = .retNone
      ∧ create_poll ⟨201, "created", none⟩ = .retNone
      ∧ fetch_polls ⟨201, "created", none⟩ = .retNone
      ∧ vote_on_poll ⟨201, "created", none⟩ = .retNone)
  ∧ (register_user ⟨204, "", none⟩ = .retNone
      ∧ create_poll ⟨204, "", none⟩ = .retNone
      ∧ fetch_polls ⟨204, "", none⟩ = .retNone
      ∧ vote_on_poll ⟨204, "", none⟩ = .retNone)
  ∧ (register_user ⟨304, "", none⟩ = .retNone
      ∧ create_poll ⟨304, "", none⟩ = .retNone
      ∧ fetch_polls ⟨304, "", none⟩ = .retNone
      ∧ vote_on_poll ⟨304, "", none⟩ = .retNone) :=
  ⟨spec_C9 ⟨201, "created", none⟩ (by decide) (by decide),
   spec_C9 ⟨204, "", none⟩ (by decide) (by decide),
   spec_C9 ⟨304, "", none⟩ (by decide) (by decide)⟩

/-- C2: a 200 response whose body is not valid JSON is classified as a
failure by every operation and no unhandled exception escapes: the four
raising operations re-raise the parse failure as a typed RequestException
(jsonError, the parse-error outcome), and get_poll_results catches the
ValueError and returns None. -/
theorem spec_C2 (r : Resp) (hs : r.status = 200) (hp : r.jsonParse = none) :
    register_user r = .jsonError
  ∧ vote_on_poll r = .jsonError
  ∧ create_poll r = .jsonError
  ∧ fetch_polls r = .jsonError
  ∧ get_poll_results_classify r = .noneRet
  ∧ Outcome.jsonError.isSuccess = false
  ∧ Outcome.jsonError.isTypedOutcome = true := by
  obtain ⟨s, t, j?⟩ := r
  simp only at hs hp
  subst hs; subst hp
  refine ⟨?_, ?_, ?_, ?_, ?_, rfl, rfl⟩ <;>
    simp [register_user, vote_on_poll, create_poll, fetch_polls,
      get_poll_results_classify]

/-- C2 witness: a 200 response with the non-JSON body text "not json"
(which fails to parse) is a failure for all five operations. -/
theorem spec_C2_witness :
    register_user ⟨200, "not json", none⟩ = .jsonError
  ∧ vote_on_poll ⟨200, "not json", none⟩ = .jsonError
  ∧ create_poll ⟨200, "not json", none⟩ = .jsonError
  ∧ fetch_polls ⟨200, "not json", none⟩ = .jsonError
  ∧ get_poll_results_classify ⟨200, "not json", none⟩ = .noneRet
  ∧ Outcome.jsonError.isSuccess = false
  ∧ Outcome.jsonError.isTypedOutcome = true :=
  spec_C2 ⟨200, "not json", none⟩ (by decide) (by decide)

/-- C5 counterexample: a 422 response whose body text consists of the two
characters brace-open brace-close has non-empty content, so the source
evaluates resp.json() and attaches the parsed empty object as the detail,
not the sentinel string "Validation error" that the claim predicts for this
input. -/
theorem spec_C5_cex :
    vote_on_poll ⟨422, "\x7b\x7d", some (.obj [])⟩
      = .failValidation (.ofJson (.obj []))
  ∧ vote_on_poll ⟨422, "\x7b\x7d", some (.obj [])⟩
      ≠ .failValidation (.ofText "Validation error")
  ∧ register_user ⟨422, "\x7b\x7d", some (.obj [])⟩
      = .failValidation (.ofJson (.obj [])) := by
  decide

/-- C5 (amended): on status 422 each raising operation attaches the sentinel
string "Validation error" exactly when the body content is empty, and the
parsed JSON body when the content is non-empty and parses; in particular a
body consisting of the literal two-character object text yields the parsed
empty object as detail, not the sentinel.  get_poll_results maps 422 to
None. -/
theorem spec_C5_amended (t : String) (j? : Option Json) :
    (t = "" →
        register_user ⟨422, t, j?⟩ = .failValidation (.ofText "Validation error")
      ∧ vote_on_poll ⟨422, t, j?⟩ = .failValidation (.ofText "Validation error")
      ∧ create_poll ⟨422, t, j?⟩ = .failValidation (.ofText "Validation error")
      ∧ fetch_polls ⟨422, t, j?⟩ = .failValidation (.ofText "Validation error"))
  ∧ (∀ j, t ≠ "" → j? = some j →
        register_user ⟨422, t, j?⟩ = .failValidation (.ofJson j)
      ∧ vote_on_poll ⟨422, t, j?⟩ = .failValidation (.ofJson j)
      ∧ create_poll ⟨422, t, j?⟩ = .failValidation (.ofJson j)
      ∧ fetch_polls ⟨422, t, j?⟩ = .failValidation (.ofJson j))
  ∧ get_poll_results_classify ⟨422, t, j?⟩ = .noneRet := by
  refine ⟨fun ht => ?_, fun j ht hj => ?_, ?_⟩
  · subst ht
    refine ⟨?_, ?_, ?_, ?_⟩ <;>
      simp [register_user, vote_on_poll, create_poll, fetch_polls]
  · subst hj
    refine ⟨?_, ?_, ?_, ?_⟩ <;>
      simp [register_user, vote_on_poll, create_poll, fetch_polls, ht]
  · simp [get_poll_results_classify]

/-- C5 witness: the amended statement applied at an empty-content 422
response and at a 422 response with the two-character object body. -/
theorem spec_C5_amended_witness :
    register_user ⟨422, "", none⟩ = .failValidation (.ofText "Validation error")
  ∧ vote_on_poll ⟨422, "", none⟩ = .failValidation (.ofText "Validation error")
  ∧ create_poll ⟨422, "", none⟩ = .failValidation (.ofText "Validation error")
  ∧ fetch_polls ⟨422, "", none⟩ = .failValidation (.ofText "Validation error") :=
  (spec_C5_amended "" none).1 rfl

/-- C3 counterexample: a 200 response whose body parses to the empty JSON
object (valid JSON, every required field missing) makes get_poll_results
return None, not a success carrying the body, so the lenient policy does not
hold for every operation. -/
theorem spec_C3_cex :
    get_poll_results_classify ⟨200, "\x7b\x7d", some (.obj [])⟩ = .noneRet
  ∧ PollResult.noneRet ≠ PollResult.ok (Json.obj []) := by
  decide

/-- C3 (amended): on a 200 response whose body is a valid JSON object
missing required fields, register_user, vote_on_poll and create_poll still
return the body as a success (the omission is only logged), and fetch_polls
does the same for a list whose object elements miss required fields; but
get_poll_results treats the missing fields as a hard failure and returns
None. -/
theorem spec_C3_amended (fs : List (String × Json)) (t : String)
    (_hv : vote_required.all ((Json.obj fs).hasKey) = false)
    (hc : create_required.all ((Json.obj fs).hasKey) = false)
    (hg : results_required.all ((Json.obj fs).hasKey) = false) :
    register_user ⟨200, t, some (.obj fs)⟩ = .success (.obj fs)
  ∧ vote_on_poll ⟨200, t, some (.obj fs)⟩ = .success (.obj fs)
  ∧ create_poll ⟨200, t, some (.obj fs)⟩ = .success (.obj fs)
  ∧ fetch_polls ⟨200, t, some (.arr [Json.obj fs])⟩ = .success (.arr [Json.obj fs])
  ∧ get_poll_results_classify ⟨200, t, some (.obj fs)⟩ = .noneRet := by
  have hobj : (Json.obj fs).isObj = true := rfl
  have hhk : ((Json.obj fs).hasKey) = (fun k => fs.any (fun p => p.1 == k)) := by
    funext k; rfl
  refine ⟨?_, ?_, ?_, ?_, ?_⟩
  · simp [register_user, Json.isObj]
  · simp [vote_on_poll, Json.isObj]
  · simp [create_poll, Json.isObj, hc]
  · have hitems : fetch_items_check [Json.obj fs] = none := by
      apply fetch_items_check_of_obj; simp [Json.isObj]
    simp [fetch_polls, pyLen, hitems]
  · rw [hhk] at hg
    simp [get_poll_results_classify, pyAllIn_obj, hg]

/-- C3 witness: the amended statement applied to a 200 response whose body
is the empty JSON object. -/
theorem spec_C3_amended_witness :
    register_user ⟨200, "\x7b\x7d", some (.obj [])⟩ = .success (.obj [])
  ∧ vote_on_poll ⟨200, "\x7b\x7d", some (.obj [])⟩ = .success (.obj [])
  ∧ create_poll ⟨200, "\x7b\x7d", some (.obj [])⟩ = .success (.obj [])
  ∧ fetch_polls ⟨200, "\x7b\x7d", some (.arr [Json.obj []])⟩
      = .success (.arr [Json.obj []])
  ∧ get_poll_results_classify ⟨200, "\x7b\x7d", some (.obj [])⟩ = .noneRet :=
  spec_C3_amended [] "\x7b\x7d" (by decide) (by decide) (by decide)

/-- C4 counterexample: a 200 response for create_poll whose body is a valid
JSON object containing every required field, with the options field bound to
the number 5, does not return a success: the source evaluates
len(poll_data.get("options", [])) while logging, and len of an int raises a
TypeError that escapes the function. -/
theorem spec_C4_cex :
    create_poll ⟨200, "",
      some (.obj [("id", .num 1), ("question", .str "Q"), ("created_at", .str "c"),
        ("owner_id", .num 1), ("options", .num 5)])⟩ = .typeError
  ∧ Outcome.typeError.isSuccess = false
  ∧ create_required.all
      ((Json.obj [("id", .num 1), ("question", .str "Q"), ("created_at", .str "c"),
        ("owner_id", .num 1), ("options", .num 5)]).hasKey) = true := by
  decide

/-- C4 (amended): a 200 response whose body is a valid JSON object with all
of the operation's required fields is returned unchanged as a success by
register_user (which requires no fields), vote_on_poll, and — provided the
options value is a sized value, which the counterexample shows is necessary
— create_poll; get_poll_results additionally requires the options value to
be a list of objects each carrying id and text, and then also returns the
body unchanged; fetch_polls returns a 200 list body unchanged when each
element contains all required fields. -/
theorem spec_C4_amended (fs : List (String × Json)) (t : String) (os : List Json)
    (_hv : vote_required.all ((Json.obj fs).hasKey) = true)
    (hc : create_required.all ((Json.obj fs).hasKey) = true)
    (hlen : (pyLen ((Json.obj fs).getD "options" (Json.arr []))).isSome = true)
    (hg : results_required.all ((Json.obj fs).hasKey) = true)
    (hopt : pyIndexStr (Json.obj fs) "options" = some (Json.arr os))
    (hos : os.all optionOk = true) :
    register_user ⟨200, t, some (.obj fs)⟩ = .success (.obj fs)
  ∧ vote_on_poll ⟨200, t, some (.obj fs)⟩ = .success (.obj fs)
  ∧ create_poll ⟨200, t, some (.obj fs)⟩ = .success (.obj fs)
  ∧ get_poll_results_classify ⟨200, t, some (.obj fs)⟩ = .ok (.obj fs)
  ∧ (∀ ps : List Json, (∀ p ∈ ps, pyAllIn fetch_required p = some true) →
      fetch_polls ⟨200, t, some (.arr ps)⟩ = .success (.arr ps)) := by
  have hhk : ((Json.obj fs).hasKey) = (fun k => fs.any (fun p => p.1 == k)) := by
    funext k; rfl
  refine ⟨?_, ?_, ?_, ?_, ?_⟩
  · simp [register_user, Json.isObj]
  · simp [vote_on_poll, Json.isObj]
  · obtain ⟨n, hn⟩ := Option.isSome_iff_exists.mp hlen
    simp [create_poll, Json.isObj, hc, hn]
  · rw [hhk] at hg
    simp [get_poll_results_classify, pyAllIn_obj, hg, hopt, hos]
  · intro ps hps
    have hitems := fetch_items_check_of_all_fields ps hps
    simp [fetch_polls, pyLen, hitems]

/-- C4 witness: the amended statement applied to a 200 body carrying every
field any of the operations requires, with a well-formed options list; all
operations return the body unchanged. -/
theorem spec_C4_amended_witness :
    register_user ⟨200, "", some (.obj [("id", .num 1), ("question", .str "Q"),
      ("created_at", .str "c"), ("owner_id", .num 5), ("user_id", .num 7),
      ("option_id", .num 2),
      ("options", .arr [.obj [("id", .num 1), ("text", .str "A")]])])⟩
      = .success (.obj [("id", .num 1), ("question", .str "Q"),
        ("created_at", .str "c"), ("owner_id", .num 5), ("user_id", .num 7),
        ("option_id", .num 2),
        ("options", .arr [.obj [("id", .num 1), ("text", .str "A")]])])
  ∧ vote_on_poll ⟨200, "", some (.obj [("id", .num 1), ("question", .str "Q"),
      ("created_at", .str "c"), ("owner_id", .num 5), ("user_id", .num 7),
      ("option_id", .num 2),
      ("options", .arr [.obj [("id", .num 1), ("text", .str "A")]])])⟩
      = .success (.obj [("id", .num 1), ("question", .str "Q"),
        ("created_at", .str "c"), ("owner_id", .num 5), ("user_id", .num 7),
        ("option_id", .num 2),
        ("options", .arr [.obj [("id", .num 1), ("text", .str "A")]])])
  ∧ create_poll ⟨200, "", some (.obj [("id", .num 1), ("question", .str "Q"),
      ("created_at", .str "c"), ("owner_id", .num 5), ("user_id", .num 7),
      ("option_id", .num 2),
      ("options", .arr [.obj [("id", .num 1), ("text", .str "A")]])])⟩
      = .success (.obj [("id", .num 1), ("question", .str "Q"),
        ("created_at", .str "c"), ("owner_id", .num 5), ("user_id", .num 7),
        ("option_id", .num 2),
        ("options", .arr [.obj [("id", .num 1), ("text", .str "A")]])])
  ∧ get_poll_results_classify ⟨200, "", some (.obj [("id", .num 1),
      ("question", .str "Q"), ("created_at", .str "c"), ("owner_id", .num 5),
      ("user_id", .num 7), ("option_id", .num 2),
      ("options", .arr [.obj [("id", .num 1), ("text", .str "A")]])])⟩
      = .ok (.obj [("id", .num 1), ("question", .str "Q"),
        ("created_at", .str "c"), ("owner_id", .num 5), ("user_id", .num 7),
        ("option_id", .num 2),
        ("options", .arr [.obj [("id", .num 1), ("text", .str "A")]])]) := by
  obtain ⟨h1, h2, h3, h4, _⟩ := spec_C4_amended
    [("id", .num 1), ("question", .str "Q"), ("created_at", .str "c"),
     ("owner_id", .num 5), ("user_id", .num 7), ("option_id", .num 2),
     ("options", .arr [.obj [("id", .num 1), ("text", .str "A")]])]
    "" [.obj [("id", .num 1), ("text", .str "A")]]
    (by decide) (by decide) (by decide) (by decide) (by decide) (by decide)
  exact ⟨h1, h2, h3, h4⟩

/-- On any 4xx or 5xx status, register_user produces a typed outcome (a
deliberate ValueError, the parse-failure RequestException, or the
raise_for_status HTTPError re-raised as a RequestException). -/
theorem register_typed_4xx (s : Nat) (t : String) (j? : Option Json)
    (h4 : 400 ≤ s) (h6 : s < 600) :
    (register_user ⟨s, t, j?⟩).isTypedOutcome = true := by
  have h200 : s ≠ 200 := by omega
  by_cases h400 : s = 400
  · simp [register_user, h200, h400, Outcome.isTypedOutcome]
  · by_cases h422 : s = 422
    · subst h422
      by_cases ht : t = ""
      · simp [register_user, ht, Outcome.isTypedOutcome]
      · cases j? <;> simp [register_user, ht, Outcome.isTypedOutcome]
    · simp [register_user, h200, h400, h422, h4, h6, Outcome.isTypedOutcome]

/-- On any 4xx or 5xx status, vote_on_poll produces a typed outcome. -/
theorem vote_typed_4xx (s : Nat) (t : String) (j? : Option Json)
    (h4 : 400 ≤ s) (h6 : s < 600) :
    (vote_on_poll ⟨s, t, j?⟩).isTypedOutcome = true := by
  have h200 : s ≠ 200 := by omega
  by_cases h401 : s = 401
  · simp [vote_on_poll, h200, h401, Outcome.isTypedOutcome]
  · by_cases h404 : s = 404
    · simp [vote_on_poll, h200, h401, h404, Outcome.isTypedOutcome]
    · by_cases h422 : s = 422
      · subst h422
        by_cases ht : t = ""
        · simp [vote_on_poll, ht, Outcome.isTypedOutcome]
        · cases j? <;> simp [vote_on_poll, ht, Outcome.isTypedOutcome]
      · simp [vote_on_poll, h200, h401, h404, h422, h4, h6, Outcome.isTypedOutcome]

/-- On any 4xx or 5xx status, create_poll produces a typed outcome. -/
theorem create_typed_4xx (s : Nat) (t : String) (j? : Option Json)
    (h4 : 400 ≤ s) (h6 : s < 600) :
    (create_poll ⟨s, t, j?⟩).isTypedOutcome = true := by
  have h200 : s ≠ 200 := by omega
  by_cases h401 : s = 401
  · simp [create_poll, h200, h401, Outcome.isTypedOutcome]
  · by_cases h422 : s = 422
    · subst h422
      by_cases ht : t = ""
      · simp [create_poll, ht, Outcome.isTypedOutcome]
      · cases j? <;> simp [create_poll, ht, Outcome.isTypedOutcome]
    · simp [create_poll, h200, h401, h422, h4, h6, Outcome.isTypedOutcome]

/-- On any 4xx or 5xx status, fetch_polls produces a typed outcome. -/
theorem fetch_typed_4xx (s : Nat) (t : String) (j? : Option Json)
    (h4 : 400 ≤ s) (h6 : s < 600) :
    (fetch_polls ⟨s, t, j?⟩).isTypedOutcome = true := by
  have h200 : s ≠ 200 := by omega
  by_cases h422 : s = 422
  · subst h422
    by_cases ht : t = ""
    · simp [fetch_polls, ht, Outcome.isTypedOutcome]
    · cases j? <;> simp [fetch_polls, ht, Outcome.isTypedOutcome]
  · simp [fetch_polls, h200, h422, h4, h6, Outcome.isTypedOutcome]

/-- On a 200 whose body fails to parse or parses to an object, register_user
produces a typed outcome. -/
theorem register_typed_200 (t : String) (j? : Option Json)
    (h : objOrUnparsed j? = true) :
    (register_user ⟨200, t, j?⟩).isTypedOutcome = true := by
  cases j? with
  | none => simp [register_user, Outcome.isTypedOutcome]
  | some j =>
    obtain ⟨fs, rfl⟩ : ∃ fs, j = Json.obj fs := by
      cases j <;> simp [objOrUnparsed] at h ⊢
    simp [register_user, Json.isObj, Outcome.isTypedOutcome]

/-- On a 200 whose body fails to parse or parses to an object, vote_on_poll
produces a typed outcome. -/
theorem vote_typed_200 (t : String) (j? : Option Json)
    (h : objOrUnparsed j? = true) :
    (vote_on_poll ⟨200, t, j?⟩).isTypedOutcome = true := by
  cases j? with
  | none => simp [vote_on_poll, Outcome.isTypedOutcome]
  | some j =>
    obtain ⟨fs, rfl⟩ : ∃ fs, j = Json.obj fs := by
      cases j <;> simp [objOrUnparsed] at h ⊢
    simp [vote_on_poll, Json.isObj, Outcome.isTypedOutcome]

/-- On a 200 whose body fails to parse or parses to an object, create_poll
produces a typed outcome provided the options value has a length whenever
all required fields are present. -/
theorem create_typed_200 (t : String) (j? : Option Json)
    (h : createSafeBody j? = true) :
    (create_poll ⟨200, t, j?⟩).isTypedOutcome = true := by
  cases j? with
  | none => simp [create_poll, Outcome.isTypedOutcome]
  | some j =>
    obtain ⟨fs, rfl⟩ : ∃ fs, j = Json.obj fs := by
      cases j <;> simp [createSafeBody] at h ⊢
    by_cases hall : create_required.all ((Json.obj fs).hasKey) = true
    · have hlen : (pyLen ((Json.obj fs).getD "options" (Json.arr []))).isSome = true := by
        simpa [createSafeBody, hall] using h
      obtain ⟨n, hn⟩ := Option.isSome_iff_exists.mp hlen
      simp [create_poll, Json.isObj, hall, hn, Outcome.isTypedOutcome]
    · have hfalse : create_required.all ((Json.obj fs).hasKey) = false :=
        Bool.eq_false_iff.mpr hall
      simp [create_poll, Json.isObj, hfalse, Outcome.isTypedOutcome]

/-- On a 200 whose body fails to parse or parses to a list of objects,
fetch_polls produces a typed outcome. -/
theorem fetch_typed_200 (t : String) (j? : Option Json)
    (h : fetchSafeBody j? = true) :
    (fetch_polls ⟨200, t, j?⟩).isTypedOutcome = true := by
  cases j? with
  | none => simp [fetch_polls, Outcome.isTypedOutcome]
  | some j =>
    obtain ⟨ps, rfl⟩ : ∃ ps, j = Json.arr ps := by
      cases j <;> simp [fetchSafeBody] at h ⊢
    have hall : ps.all Json.isObj = true := by simpa [fetchSafeBody] using h
    have hitems := fetch_items_check_of_obj ps hall
    simp [fetch_polls, pyLen, hitems, Outcome.isTypedOutcome]

/-- On a 200 whose body fails to parse or parses to an object,
get_poll_results cannot escape with a TypeError: every path returns the poll
data or None. -/
theorem get_classify_200_no_typeError (t : String) (j? : Option Json)
    (h : objOrUnparsed j? = true) :
    get_poll_results_classify ⟨200, t, j?⟩ ≠ .typeError := by
  cases j? with
  | none => simp [get_poll_results_classify]
  | some j =>
    obtain ⟨fs, rfl⟩ : ∃ fs, j = Json.obj fs := by
      cases j <;> simp [objOrUnparsed] at h ⊢
    show (match pyAllIn results_required (Json.obj fs) with
      | none => PollResult.typeError
      | some false => PollResult.noneRet
      | some true =>
        match pyIndexStr (Json.obj fs) "options" with
        | none => PollResult.typeError
        | some opts =>
          match opts with
          | .arr os => if os.all optionOk then PollResult.ok (Json.obj fs) else .noneRet
          | _ => PollResult.noneRet) ≠ PollResult.typeError
    rw [pyAllIn_obj]
    cases hall : results_required.all (fun k => fs.any (fun p => p.1 == k)) with
    | false => simp
    | true =>
      have hmem : fs.any (fun p => p.1 == "options") = true :=
        List.all_eq_true.mp hall "options" (by decide)
      obtain ⟨v, hv⟩ := lookupLast_isSome fs "options" hmem
      simp only [pyIndexStr, hv]
      cases v with
      | arr os => cases hoa : os.all optionOk <;> simp [hoa]
      | null => simp
      | bool b => simp
      | num n => simp
      | str s => simp
      | obj fs2 => simp

/-- C1 counterexample: a 200 response whose body is the valid JSON number 5
makes register_user evaluate user_data.get("username", ...) on an int while
logging, and the AttributeError escapes the function: this in-band
(status, body) input produces neither a success value nor a typed failure. -/
theorem spec_C1_cex :
    register_user ⟨200, "5", some (.num 5)⟩ = .attrError
  ∧ Outcome.attrError.isTypedOutcome = false
  ∧ Outcome.attrError.isSuccess = false
  ∧ vote_on_poll ⟨200, "5", some (.num 5)⟩ = .attrError
  ∧ create_poll ⟨200, "5", some (.num 5)⟩ = .attrError
  ∧ fetch_polls ⟨200, "5", some (.num 5)⟩ = .typeError
  ∧ get_poll_results_classify ⟨200, "5", some (.num 5)⟩ = .typeError := by
  decide

/-- C1 (amended): for every status in the set 200, 400, 401, 404, 422, 500
and every body, each operation's classification is a total deterministic
Lean function, and it produces exactly one outcome that is a success value
or a typed failure — provided that on status 200 the parsed body, when the
parse succeeds, is a JSON object (for create_poll with a sized options value
whenever all required fields are present; for fetch_polls a list of
objects); outside that restriction, which the counterexample shows is
necessary, an untyped AttributeError or TypeError escapes.  For
get_poll_results an outcome is typed when the function returns (the poll
data or None) rather than escaping with a TypeError.  Determinism is
unconditional: equal (status, body) inputs give equal outcomes. -/
theorem spec_C1_amended (r : Resp)
    (hs : r.status = 200 ∨ r.status = 400 ∨ r.status = 401 ∨ r.status = 404
        ∨ r.status = 422 ∨ r.status = 500) :
    (objOrUnparsed r.jsonParse = true →
        (register_user r).isTypedOutcome = true
      ∧ (vote_on_poll r).isTypedOutcome = true
      ∧ get_poll_results_classify r ≠ .typeError)
  ∧ (createSafeBody r.jsonParse = true → (create_poll r).isTypedOutcome = true)
  ∧ (fetchSafeBody r.jsonParse = true → (fetch_polls r).isTypedOutcome = true)
  ∧ (∀ r2 : Resp, r2 = r →
        register_user r2 = register_user r
      ∧ vote_on_poll r2 = vote_on_poll r
      ∧ create_poll r2 = create_poll r
      ∧ fetch_polls r2 = fetch_polls r
      ∧ get_poll_results_classify r2 = get_poll_results_classify r) := by
  obtain ⟨s, t, j?⟩ := r
  simp only at hs
  refine ⟨fun h => ?_, fun h => ?_, fun h => ?_,
    fun r2 h2 => by subst h2; exact ⟨rfl, rfl, rfl, rfl, rfl⟩⟩
  · rcases hs with rfl | rfl | rfl | rfl | rfl | rfl
    · exact ⟨register_typed_200 t j? h, vote_typed_200 t j? h,
        get_classify_200_no_typeError t j? h⟩
    all_goals exact ⟨register_typed_4xx _ t j? (by omega) (by omega),
      vote_typed_4xx _ t j? (by omega) (by omega),
      by simp [get_poll_results_classify]⟩
  · rcases hs with rfl | rfl | rfl | rfl | rfl | rfl
    · exact create_typed_200 t j? h
    all_goals exact create_typed_4xx _ t j? (by omega) (by omega)
  · rcases hs with rfl | rfl | rfl | rfl | rfl | rfl
    · exact fetch_typed_200 t j? h
    all_goals exact fetch_typed_4xx _ t j? (by omega) (by omega)

/-- C1 witness: the amended statement applied to a 200 response whose body
is the empty JSON object, and to a 500 response. -/
theorem spec_C1_amended_witness :
    ((register_user ⟨200, "\x7b\x7d", some (.obj [])⟩).isTypedOutcome = true
      ∧ (vote_on_poll ⟨200, "\x7b\x7d", some (.obj [])⟩).isTypedOutcome = true
      ∧ get_poll_results_classify ⟨200, "\x7b\x7d", some (.obj [])⟩ ≠ .typeError)
  ∧ (create_poll ⟨500, "boom", none⟩).isTypedOutcome = true :=
  ⟨(spec_C1_amended ⟨200, "\x7b\x7d", some (.obj [])⟩ (by decide)).1 (by decide),
   (spec_C1_amended ⟨500, "boom", none⟩ (by decide)).2.1 (by decide)⟩

/-- C10: get_poll_results is claimed never to raise; the enumerated failure
paths do return None (invalid poll_id or base_url without issuing a request,
transport errors, non-200 statuses), but a 200 response whose body is the
valid JSON number 5 makes the code evaluate the expression
"id" in poll_data on an int, and the TypeError escapes the function — the
inner handler catches only ValueError and the outer handlers only requests
exceptions.  This contradicts the function's own documented contract
("Poll data with results if successful, None otherwise"). -/
theorem spec_C10 :
    get_poll_results "http://localhost:8000" 1 (.resp ⟨200, "5", some (.num 5)⟩)
      = (true, .typeError)
  ∧ PollResult.typeError ≠ PollResult.noneRet
  ∧ (∀ tr : Transport, get_poll_results "http://localhost:8000" 0 tr = (false, .noneRet))
  ∧ (∀ tr : Transport, get_poll_results "http://localhost:8000" (-3) tr = (false, .noneRet))
  ∧ (∀ tr : Transport, get_poll_results "" 1 tr = (false, .noneRet))
  ∧ get_poll_results "http://localhost:8000" 1 .connectionError = (true, .noneRet)
  ∧ get_poll_results "http://localhost:8000" 1 .timeout = (true, .noneRet)
  ∧ get_poll_results "http://localhost:8000" 1 .requestException = (true, .noneRet)
  ∧ (∀ t : String, ∀ j? : Option Json,
      get_poll_results "http://localhost:8000" 1 (.resp ⟨404, t, j?⟩) = (true, .noneRet))
  ∧ get_poll_results "http://localhost:8000" 1 (.resp ⟨200, "not json", none⟩)
      = (true, .noneRet) := by
  refine ⟨by decide, by decide, fun tr => by norm_num [get_poll_results],
    fun tr => by norm_num [get_poll_results],
    fun tr => by norm_num [get_poll_results],
    by decide, by decide, by decide, fun t j? => ?_, by decide⟩
  simp [get_poll_results, get_poll_results_classify]

end PollyAPI
